import Mathlib

/-!
Shallow embedding of the Dubai Market Intelligence Service
(`backend/app/services/dubai_market_service.py`): reference tables,
season/event resolution, the price composer `calculate_optimal_price`,
the pricing-calendar generator, the market forecast and the market
benchmarks, together with theorems settling the specification claims.

Python floats are modelled as `ℚ` (every literal in the reference tables
is an exact decimal); Python ints as `ℤ`/`ℕ`; Python dicts as
association lists looked up with `List.lookup`; a raised Python
exception as the `Except.error` branch of an `Except PyError` result.
-/

/-- Errors a call into the service can surface.  `invalidPricingInput`
is the error named by the specification's failure-semantics taxonomy; it
has no counterpart in the code, which never constructs it.
`zeroDivisionError` models Python's `ZeroDivisionError`;
`valueError` models Python's `ValueError` (e.g. `max()` of an empty
sequence). -/
inductive PyError where
  | invalidPricingInput
  | zeroDivisionError
  | valueError
deriving DecidableEq, Repr

/-- A Python `datetime.date`: year, month (1-12), day (1-31).  Validity
of the fields is not enforced by the embedding; all claims are settled
either on concrete valid dates or for arbitrary field values. -/
structure Date where
  year : ℕ
  month : ℕ
  day : ℕ
deriving DecidableEq, Repr

/-- `datetime.date.weekday()`: 0 = Monday .. 6 = Sunday, via Zeller's
congruence (exact for the proleptic Gregorian calendar that `datetime`
implements). -/
def Date.weekday (d : Date) : ℕ :=
  let y : ℤ := if d.month ≤ 2 then (d.year : ℤ) - 1 else (d.year : ℤ)
  let m : ℤ := if d.month ≤ 2 then (d.month : ℤ) + 12 else (d.month : ℤ)
  let K : ℤ := y % 100
  let J : ℤ := y / 100
  let h : ℤ := ((d.day : ℤ) + (13 * (m + 1)) / 5 + K + K / 4 + J / 4 + 5 * J) % 7
  ((h + 5) % 7).toNat

/-- Gregorian leap-year rule, as implemented by `datetime`. -/
def isLeap (y : ℕ) : Bool := (y % 4 = 0 ∧ y % 100 ≠ 0) ∨ y % 400 = 0

/-- Number of days in a month of the Gregorian calendar. -/
def daysInMonth (y m : ℕ) : ℕ :=
  if m = 2 then (if isLeap y then 29 else 28)
  else if m = 4 ∨ m = 6 ∨ m = 9 ∨ m = 11 then 30
  else 31

/-- Successor day, modelling `date + timedelta(days=1)`. -/
def nextDay (d : Date) : Date :=
  if d.day < daysInMonth d.year d.month then ⟨d.year, d.month, d.day + 1⟩
  else if d.month < 12 then ⟨d.year, d.month + 1, 1⟩
  else ⟨d.year + 1, 1, 1⟩

/-- `date + timedelta(days=n)` for `n ≥ 0`. -/
def addDays (d : Date) (n : ℕ) : Date := Nat.iterate nextDay n d

/-- Decimal rendering of a natural number left-padded with zeros to
width `w`. -/
def padNat (w n : ℕ) : String :=
  let s := toString n
  if s.length < w then String.mk (List.replicate (w - s.length) '0') ++ s else s

/-- `date.isoformat()`: `YYYY-MM-DD`. -/
def Date.isoformat (d : Date) : String :=
  padNat 4 d.year ++ "-" ++ padNat 2 d.month ++ "-" ++ padNat 2 d.day

/-- `date.strftime("%A")`: full weekday name. -/
def Date.dayName (d : Date) : String :=
  (["Monday", "Tuesday", "Wednesday", "Thursday", "Friday", "Saturday",
    "Sunday"].getD d.weekday "")

/-- `date.strftime("%b")`: abbreviated month name (months 1-12; the
fallback is unreachable for valid dates). -/
def Date.monthAbbrev (d : Date) : String :=
  (["Jan", "Feb", "Mar", "Apr", "May", "Jun", "Jul", "Aug", "Sep", "Oct",
    "Nov", "Dec"].getD (d.month - 1) "")

/-- `date.strftime("%b %Y")`. -/
def Date.monthLabel (d : Date) : String :=
  d.monthAbbrev ++ " " ++ padNat 4 d.year

/-- Enum `DubaiArea` of `dubai_market_service.py`. -/
inductive DubaiArea where
  | marina | downtown | jlt | business_bay | jbr | palm_jumeirah
  | deira | burdubai | jumeirah | silicon_oasis
deriving DecidableEq, Repr

/-- The `.value` string of each `DubaiArea` member. -/
def DubaiArea.value : DubaiArea → String
  | .marina => "marina"
  | .downtown => "downtown"
  | .jlt => "jlt"
  | .business_bay => "business_bay"
  | .jbr => "jbr"
  | .palm_jumeirah => "palm_jumeirah"
  | .deira => "deira"
  | .burdubai => "bur_dubai"
  | .jumeirah => "jumeirah"
  | .silicon_oasis => "silicon_oasis"

/-- Enum `DubaiSeason`. -/
inductive DubaiSeason where
  | peak_winter | high_winter | shoulder | low_summer
deriving DecidableEq, Repr

/-- The `.value` string of each `DubaiSeason` member. -/
def DubaiSeason.value : DubaiSeason → String
  | .peak_winter => "peak_winter"
  | .high_winter => "high_winter"
  | .shoulder => "shoulder"
  | .low_summer => "low_summer"

/-- Enum `DubaiEvent`. -/
inductive DubaiEvent where
  | shopping_festival | f1_grand_prix | gitex | arab_health | ramadan
  | eid_al_fitr | eid_al_adha | uae_national_day | new_year
deriving DecidableEq, Repr

/-- `DubaiMarketService._get_area_pricing_multipliers`: the dict
`{area .value string ↦ multiplier}`, in source order. -/
def area_multipliers : List (String × ℚ) :=
  [ (DubaiArea.palm_jumeirah.value, 2.0),
    (DubaiArea.marina.value, 1.6),
    (DubaiArea.downtown.value, 1.5),
    (DubaiArea.jbr.value, 1.4),
    (DubaiArea.business_bay.value, 1.2),
    (DubaiArea.jumeirah.value, 1.3),
    (DubaiArea.jlt.value, 1.0),
    (DubaiArea.silicon_oasis.value, 0.8),
    (DubaiArea.deira.value, 0.7),
    (DubaiArea.burdubai.value, 0.6) ]

/-- `DubaiMarketService._get_seasonal_multipliers`.  The Python dict is
keyed by the season's `.value` string and contains every season, and is
only ever indexed directly (`self.seasonal_multipliers[season.value]`),
so it is embedded as a total function on the enum. -/
def seasonal_multipliers : DubaiSeason → ℚ
  | .peak_winter => 1.5
  | .high_winter => 1.3
  | .shoulder => 1.0
  | .low_summer => 0.7

/-- `DubaiMarketService._get_event_multipliers`.  The Python dict is
keyed by the event's `.value` string and contains every member of
`DubaiEvent`, so the `.get(type, 1.0)` lookups in the code never fall
back to the default and the dict is embedded as a total function. -/
def event_multipliers : DubaiEvent → ℚ
  | .f1_grand_prix => 3.0
  | .shopping_festival => 1.8
  | .gitex => 1.6
  | .arab_health => 1.5
  | .uae_national_day => 1.4
  | .new_year => 2.0
  | .eid_al_fitr => 1.3
  | .eid_al_adha => 1.3
  | .ramadan => 0.8

/-- One entry of the events calendar: `{"name": ..., "type": ...,
"days": [...]}`. -/
structure CalEvent where
  name : String
  type : DubaiEvent
  days : List ℕ
deriving DecidableEq, Repr

/-- `DubaiMarketService._get_dubai_events_calendar_2024`, keyed by
(year, month).  The Python source writes the key `"2024-03"` twice in
the same dict literal — once with the Formula 1 Grand Prix entry and
once with the Ramadan entry — and a Python dict literal keeps only the
last value bound to a duplicated key, so the compiled-in dict maps
`"2024-03"` to the Ramadan entry alone; the embedding is the dict after
that resolution.  `days` sets: `range(a, b)` is the list `a..b-1`. -/
def dubai_events_2024 : List ((ℕ × ℕ) × List CalEvent) :=
  [ ((2024, 1),
      [⟨"Dubai Shopping Festival", .shopping_festival, List.range' 1 28⟩]),
    ((2024, 3),
      [⟨"Ramadan", .ramadan, List.range' 10 22⟩]),
    ((2024, 4),
      [⟨"Ramadan", .ramadan, List.range' 1 9⟩,
       ⟨"Eid Al-Fitr", .eid_al_fitr, [10, 11, 12]⟩]),
    ((2024, 6),
      [⟨"Eid Al-Adha", .eid_al_adha, [16, 17, 18]⟩]),
    ((2024, 10),
      [⟨"GITEX Technology Week", .gitex, List.range' 14 5⟩]),
    ((2024, 12),
      [⟨"UAE National Day", .uae_national_day, [2, 3]⟩,
       ⟨"New Year Celebrations", .new_year, [31]⟩]) ]

/-- `DubaiMarketService.get_season_for_date`. -/
def get_season_for_date (target_date : Date) : DubaiSeason :=
  let month := target_date.month
  if month = 12 ∨ month = 1 ∨ month = 2 then .peak_winter
  else if month = 3 ∨ month = 11 then .high_winter
  else if month = 4 ∨ month = 10 then .shoulder
  else .low_summer

/-- `DubaiMarketService.get_events_for_date`: look up the date's
(year, month) key and keep the events whose `days` contain the day. -/
def get_events_for_date (target_date : Date) : List CalEvent :=
  match dubai_events_2024.lookup (target_date.year, target_date.month) with
  | some evs => evs.filter (fun e => target_date.day ∈ e.days)
  | none => []

example : get_season_for_date ⟨2024, 4, 15⟩ = .shoulder := by decide

example : (⟨2024, 4, 15⟩ : Date).weekday = 0 := by decide

example : get_events_for_date ⟨2024, 3, 20⟩ =
    [⟨"Ramadan", .ramadan, List.range' 10 22⟩] := by decide

/-- One element of the `active_events` list built inside
`calculate_optimal_price`: `{"name": ..., "type": ...,
"multiplier": ...}`. -/
structure ActiveEvent where
  name : String
  type : DubaiEvent
  multiplier : ℚ
deriving DecidableEq, Repr

/-- A value stored in the `pricing_factors` dict: a float, a string, or
the list of active-event dicts. -/
inductive FactorValue where
  | num (q : ℚ)
  | str (s : String)
  | events (l : List ActiveEvent)
deriving DecidableEq, Repr

/-- The dict returned by `calculate_optimal_price`; `pricing_factors`
is kept as an association list in Python insertion order. -/
structure PricingResult where
  suggested_price : ℚ
  pricing_factors : List (String × FactorValue)
  demand_level : String
  recommendations : List String
deriving DecidableEq, Repr

/-- Python's `round(x, 2)` on the exact rational value.  (Python rounds
half-cent ties to even; no claim involves an exact half-cent tie.) -/
def round2 (q : ℚ) : ℚ := ((round (q * 100) : ℤ) : ℚ) / 100

/-- Python's `round(x, 1)` on the exact rational value. -/
def round1 (q : ℚ) : ℚ := ((round (q * 10) : ℤ) : ℚ) / 10

/-- The event loop of `calculate_optimal_price`: starting from 1.0,
replace the running value by an event's multiplier whenever that
multiplier is strictly greater. -/
def max_event_multiplier_for (events : List CalEvent) : ℚ :=
  events.foldl
    (fun m e => if event_multipliers e.type > m then event_multipliers e.type else m)
    1.0

/-- The `active_events` list built by the same loop: one record per
event returned by `get_events_for_date`, with its multiplier. -/
def active_events_for (events : List CalEvent) : List ActiveEvent :=
  events.map (fun e => ⟨e.name, e.type, event_multipliers e.type⟩)

/-- `DubaiMarketService._get_demand_level`. -/
def _get_demand_level (seasonal_mult : ℚ) (event_mult : ℚ) : String :=
  let total_mult := seasonal_mult * event_mult
  if total_mult ≥ 2.5 then "Very High"
  else if total_mult ≥ 1.5 then "High"
  else if total_mult ≥ 1.0 then "Medium"
  else "Low"

/-- `DubaiMarketService._get_pricing_recommendations`.  Its first line
computes `((suggested_price - base_rate) / base_rate) * 100`, which
raises `ZeroDivisionError` when `base_rate` is 0. -/
def _get_pricing_recommendations (base_rate : ℚ) (suggested_price : ℚ)
    (events : List ActiveEvent) (season : DubaiSeason) :
    Except PyError (List String) :=
  if base_rate = 0 then .error .zeroDivisionError
  else
    let increase_pct := ((suggested_price - base_rate) / base_rate) * 100
    .ok ((if increase_pct > 50
          then ["High demand period - consider premium positioning"] else [])
      ++ (if events ≠ []
          then ["Major events active: " ++
                String.intercalate ", " (events.map ActiveEvent.name)]
          else [])
      ++ (if season = .peak_winter
          then ["Peak winter season - maximize revenue with premium rates"]
          else if season = .low_summer
          then ["Summer season - consider longer stay discounts"]
          else []))

/-- `DubaiMarketService.calculate_optimal_price`.  The weekend branch
of the Python code conditionally multiplies the price and conditionally
adds the factor entry under the same test, rendered here as two `if`s
with the same condition; the property-type branch multiplies the price
without adding any entry to `pricing_factors`. -/
def calculate_optimal_price (base_rate : ℚ) (area : String)
    (target_date : Date) (property_type : String) (bedrooms : ℤ) :
    Except PyError PricingResult :=
  let pricing_factors0 : List (String × FactorValue) :=
    [("base_rate", .num base_rate)]
  let area_multiplier := (area_multipliers.lookup area).getD 1.0
  let price1 := base_rate * area_multiplier
  let pricing_factors1 :=
    pricing_factors0 ++ [("area_multiplier", .num area_multiplier)]
  let season := get_season_for_date target_date
  let seasonal_multiplier := seasonal_multipliers season
  let price2 := price1 * seasonal_multiplier
  let pricing_factors2 := pricing_factors1 ++
    [("seasonal_multiplier", .num seasonal_multiplier),
     ("season", .str season.value)]
  let events := get_events_for_date target_date
  let max_event_multiplier := max_event_multiplier_for events
  let active_events := active_events_for events
  let price3 := price2 * max_event_multiplier
  let pricing_factors3 := pricing_factors2 ++
    [("event_multiplier", .num max_event_multiplier),
     ("active_events", .events active_events)]
  let price4 := if target_date.weekday = 4 ∨ target_date.weekday = 5
    then price3 * 1.2 else price3
  let pricing_factors4 := if target_date.weekday = 4 ∨ target_date.weekday = 5
    then pricing_factors3 ++ [("weekend_multiplier", .num 1.2)]
    else pricing_factors3
  let price5 :=
    if property_type = "villa" then price4 * 1.5
    else if property_type = "penthouse" then price4 * 2.0
    else if property_type = "studio" then price4 * 0.8
    else price4
  let bedroom_multiplier := max 0.5 (min 3.0 (0.7 + (bedrooms : ℚ) * 0.3))
  let price6 := price5 * bedroom_multiplier
  let pricing_factors5 :=
    pricing_factors4 ++ [("bedroom_multiplier", .num bedroom_multiplier)]
  match _get_pricing_recommendations base_rate price6 active_events season with
  | .error e => .error e
  | .ok recs =>
      .ok { suggested_price := round2 price6,
            pricing_factors := pricing_factors5,
            demand_level := _get_demand_level seasonal_multiplier max_event_multiplier,
            recommendations := recs }

/-- The pricing result carried by an `.ok`; junk on `.error` (used only
to state facts about calls already shown to return `.ok`). -/
def okResult (x : Except PyError PricingResult) : PricingResult :=
  match x with
  | .ok r => r
  | .error _ => ⟨0, [], "", []⟩

/-- Exception-propagating accumulation, modelling a Python `for` loop
that appends one computed entry per iteration and lets any raised
exception escape the loop. -/
def exceptMapList {α β : Type} (f : α → Except PyError β) :
    List α → Except PyError (List β)
  | [] => .ok []
  | a :: as => do
      let b ← f a
      let bs ← exceptMapList f as
      pure (b :: bs)

/-- One entry of the list built by `generate_pricing_calendar`. -/
structure CalendarEntry where
  date : String
  day_name : String
  suggested_price : ℚ
  demand_level : String
  active_events : List String
  season : String
  pricing_factors : List (String × FactorValue)
deriving DecidableEq, Repr

/-- `[e["name"] for e in pricing_data["pricing_factors"]["active_events"]]`.
The fallback branches are unreachable: `calculate_optimal_price` always
stores an `events` value under this key. -/
def factor_event_names (pf : List (String × FactorValue)) : List String :=
  match pf.lookup "active_events" with
  | some (.events l) => l.map ActiveEvent.name
  | _ => []

/-- `pricing_data["pricing_factors"]["season"]` (fallback unreachable). -/
def factor_season (pf : List (String × FactorValue)) : String :=
  match pf.lookup "season" with
  | some (.str s) => s
  | _ => ""

/-- The body of one iteration of the `generate_pricing_calendar` loop:
price day `i` counted from the start date and package the summary. -/
def calendar_entry (base_rate : ℚ) (area : String) (property_type : String)
    (bedrooms : ℤ) (start_date : Date) (i : ℕ) :
    Except PyError CalendarEntry :=
  let target_date := addDays start_date i
  match calculate_optimal_price base_rate area target_date property_type bedrooms with
  | .error e => .error e
  | .ok pricing_data =>
      .ok { date := target_date.isoformat,
            day_name := target_date.dayName,
            suggested_price := pricing_data.suggested_price,
            demand_level := pricing_data.demand_level,
            active_events := factor_event_names pricing_data.pricing_factors,
            season := factor_season pricing_data.pricing_factors,
            pricing_factors := pricing_data.pricing_factors }

/-- `DubaiMarketService.generate_pricing_calendar`.  `today` models
`date.today()`.  `for i in range(days_ahead)` iterates over
`0..days_ahead-1` and not at all when `days_ahead ≤ 0`, which is
`List.range days_ahead.toNat`. -/
def generate_pricing_calendar (base_rate : ℚ) (area : String)
    (days_ahead : ℤ) (property_type : String) (bedrooms : ℤ)
    (today : Date) : Except PyError (List CalendarEntry) :=
  exceptMapList (calendar_entry base_rate area property_type bedrooms today)
    (List.range days_ahead.toNat)

/-- One entry of `forecast_data` in `get_market_forecast`. -/
structure ForecastMonth where
  month : String
  month_short : String
  forecasted_revenue : ℚ
  confidence : ℤ
  season : String
  seasonal_multiplier : ℚ
deriving DecidableEq, Repr

/-- The body of one iteration of the `get_market_forecast` loop for
0-based month index `i`.  `sinApprox` abstracts `math.sin`, which has
no exact rational embedding; no claim depends on its values.
`base_revenue = 5000`. -/
def forecast_month (today : Date) (sinApprox : ℚ → ℚ) (i : ℕ) :
    ForecastMonth :=
  let future_date := addDays today (30 * i)
  let season := get_season_for_date future_date
  let seasonal_mult := seasonal_multipliers season
  let variation := sinApprox ((i : ℚ) * 0.5) * 0.1 + 1
  let forecasted_revenue := 5000 * seasonal_mult * variation
  let confidence : ℤ := max 60 (95 - (i : ℤ) * 3)
  { month := future_date.monthLabel,
    month_short := future_date.monthAbbrev,
    forecasted_revenue := round2 forecasted_revenue,
    confidence := confidence,
    season := season.value,
    seasonal_multiplier := seasonal_mult }

/-- Python's `max(list, key=revenue)`: the first entry with maximal
revenue (a later entry replaces the running best only when strictly
greater). -/
def peakByRevenue (hd : ForecastMonth) (tl : List ForecastMonth) :
    ForecastMonth :=
  tl.foldl
    (fun best x =>
      if x.forecasted_revenue > best.forecasted_revenue then x else best) hd

/-- Python's `min(list, key=revenue)`: the first entry with minimal
revenue. -/
def lowByRevenue (hd : ForecastMonth) (tl : List ForecastMonth) :
    ForecastMonth :=
  tl.foldl
    (fun best x =>
      if x.forecasted_revenue < best.forecasted_revenue then x else best) hd

/-- The `insights` sub-dict of the forecast result. -/
structure ForecastInsights where
  peak_month : ForecastMonth
  low_month : ForecastMonth
  average_confidence : ℚ
deriving DecidableEq, Repr

/-- The dict returned by `get_market_forecast`. -/
structure ForecastResult where
  forecast_data : List ForecastMonth
  insights : ForecastInsights
deriving DecidableEq, Repr

/-- `DubaiMarketService.get_market_forecast`.  With `months_ahead ≤ 0`
the loop contributes nothing and `max(forecast_data, key=...)` in the
`insights` dict raises `ValueError` on the empty sequence. -/
def get_market_forecast (months_ahead : ℤ) (today : Date)
    (sinApprox : ℚ → ℚ) : Except PyError ForecastResult :=
  match (List.range months_ahead.toNat).map (forecast_month today sinApprox) with
  | [] => .error .valueError
  | hd :: tl =>
      .ok { forecast_data := hd :: tl,
            insights :=
              { peak_month := peakByRevenue hd tl,
                low_month := lowByRevenue hd tl,
                average_confidence :=
                  round1 ((((hd :: tl).map ForecastMonth.confidence).sum : ℚ) /
                    ((hd :: tl).length : ℚ)) } }

/-- The `market_metrics` sub-dict of a benchmark. -/
structure MarketMetrics where
  average_daily_rate : ℚ
  occupancy_rate : ℚ
  revpar : ℚ
  market_health_score : ℚ
deriving DecidableEq, Repr

/-- The `area_insights` sub-dict of a benchmark. -/
structure AreaInsights where
  area : String
  tier : String
  primary_demand : String
  seasonality_impact : String
deriving DecidableEq, Repr

/-- The dict returned by `get_market_benchmarks`. -/
structure MarketBenchmark where
  market_metrics : MarketMetrics
  area_insights : AreaInsights
  recommendations : List String
deriving DecidableEq, Repr

/-- The `profiles` dict of `_get_area_demand_profile`. -/
def area_demand_profiles : List (String × String) :=
  [ (DubaiArea.marina.value, "Tourists & Business Travelers"),
    (DubaiArea.downtown.value, "Business & Conference Attendees"),
    (DubaiArea.jlt.value, "Corporate Housing & Expats"),
    (DubaiArea.business_bay.value, "Business Travelers"),
    (DubaiArea.jbr.value, "Leisure Tourists"),
    (DubaiArea.palm_jumeirah.value, "Luxury Tourists"),
    (DubaiArea.jumeirah.value, "Family Tourists"),
    (DubaiArea.deira.value, "Budget Travelers & Regional Visitors"),
    (DubaiArea.burdubai.value, "Cultural Tourists & Budget Travelers"),
    (DubaiArea.silicon_oasis.value, "Tech Workers & Long-term Stays") ]

/-- `DubaiMarketService._get_area_demand_profile`. -/
def _get_area_demand_profile (area : String) : String :=
  (area_demand_profiles.lookup area).getD "Mixed Demand"

/-- `DubaiMarketService._get_area_recommendations`. -/
def _get_area_recommendations (area : String) (multiplier : ℚ) :
    List String :=
  (if multiplier ≥ 1.5 then
    ["Premium positioning - focus on luxury amenities",
     "Target high-end business and leisure travelers"]
   else if multiplier ≥ 1.0 then
    ["Competitive rates with quality amenities",
     "Balanced approach for business and leisure"]
   else
    ["Value positioning - emphasize cost-effectiveness",
     "Target budget-conscious and longer-stay guests"])
  ++ (if area = DubaiArea.marina.value then
        ["Highlight waterfront views and dining options"]
      else if area = DubaiArea.downtown.value then
        ["Emphasize business facilities and metro access"]
      else if area = DubaiArea.jlt.value then
        ["Target corporate clients and metro connectivity"]
      else [])

/-- Python's `str.title()` restricted to the lowercase space-separated
strings this service feeds it (capitalise the first letter of each
word); exact for every area string produced by `replace("_", " ")`. -/
def titleCase (s : String) : String :=
  String.intercalate " " ((s.splitOn " ").map String.capitalize)

/-- `DubaiMarketService.get_market_benchmarks` (`property_type` is
accepted and unused, as in the source). -/
def get_market_benchmarks (area : String) (property_type : String) :
    MarketBenchmark :=
  let area_mult := (area_multipliers.lookup area).getD 1.0
  let base_adr : ℚ := 120
  let market_adr := base_adr * area_mult
  { market_metrics :=
      { average_daily_rate := round2 market_adr,
        occupancy_rate := round1 (65 + area_mult * 10),
        revpar := round2 (market_adr * (0.65 + area_mult * 0.1)),
        market_health_score := round1 (60 + area_mult * 20) },
    area_insights :=
      { area := titleCase (area.replace "_" " "),
        tier := if area_mult ≥ 1.4 then "Premium"
          else if area_mult ≥ 1.0 then "Standard" else "Budget",
        primary_demand := _get_area_demand_profile area,
        seasonality_impact := if area_mult ≥ 1.3 then "High" else "Medium" },
    recommendations := _get_area_recommendations area area_mult }

/-- The list `_get_pricing_recommendations` returns on its non-raising
path (`base_rate ≠ 0`). -/
def pricing_recommendations (base_rate : ℚ) (suggested_price : ℚ)
    (events : List ActiveEvent) (season : DubaiSeason) : List String :=
  let increase_pct := ((suggested_price - base_rate) / base_rate) * 100
  (if increase_pct > 50
    then ["High demand period - consider premium positioning"] else [])
  ++ (if events ≠ []
      then ["Major events active: " ++
            String.intercalate ", " (events.map ActiveEvent.name)]
      else [])
  ++ (if season = .peak_winter
      then ["Peak winter season - maximize revenue with premium rates"]
      else if season = .low_summer
      then ["Summer season - consider longer stay discounts"]
      else [])

/-- The `PricingResult` that `calculate_optimal_price` wraps in `.ok`
on its non-raising path: the same composition with the recommendation
guard already taken. -/
def calc_result (base_rate : ℚ) (area : String) (target_date : Date)
    (property_type : String) (bedrooms : ℤ) : PricingResult :=
  let area_multiplier := (area_multipliers.lookup area).getD 1.0
  let price1 := base_rate * area_multiplier
  let season := get_season_for_date target_date
  let seasonal_multiplier := seasonal_multipliers season
  let price2 := price1 * seasonal_multiplier
  let events := get_events_for_date target_date
  let max_event_multiplier := max_event_multiplier_for events
  let active_events := active_events_for events
  let price3 := price2 * max_event_multiplier
  let price4 := if target_date.weekday = 4 ∨ target_date.weekday = 5
    then price3 * 1.2 else price3
  let price5 :=
    if property_type = "villa" then price4 * 1.5
    else if property_type = "penthouse" then price4 * 2.0
    else if property_type = "studio" then price4 * 0.8
    else price4
  let bedroom_multiplier := max 0.5 (min 3.0 (0.7 + (bedrooms : ℚ) * 0.3))
  let price6 := price5 * bedroom_multiplier
  { suggested_price := round2 price6,
    pricing_factors :=
      ([("base_rate", .num base_rate),
        ("area_multiplier", .num area_multiplier),
        ("seasonal_multiplier", .num seasonal_multiplier),
        ("season", .str season.value),
        ("event_multiplier", .num max_event_multiplier),
        ("active_events", .events active_events)]
       ++ (if target_date.weekday = 4 ∨ target_date.weekday = 5
           then [("weekend_multiplier", .num 1.2)] else [])
       ++ [("bedroom_multiplier", .num bedroom_multiplier)]),
    demand_level := _get_demand_level seasonal_multiplier max_event_multiplier,
    recommendations :=
      pricing_recommendations base_rate price6 active_events season }

theorem calculate_ok (base_rate : ℚ) (hb : base_rate ≠ 0) (area : String)
    (target_date : Date) (property_type : String) (bedrooms : ℤ) :
    calculate_optimal_price base_rate area target_date property_type bedrooms =
      .ok (calc_result base_rate area target_date property_type bedrooms) := by
  simp only [calculate_optimal_price, calc_result, _get_pricing_recommendations,
    pricing_recommendations, if_neg hb]
  split_ifs <;> simp [List.append_assoc]

theorem calculate_zero (area : String) (target_date : Date)
    (property_type : String) (bedrooms : ℤ) :
    calculate_optimal_price 0 area target_date property_type bedrooms =
      .error .zeroDivisionError := by
  simp [calculate_optimal_price, _get_pricing_recommendations]

/-- The `pricing_factors` of a non-raising call, in closed form. -/
theorem calc_result_factors (base_rate : ℚ) (area : String)
    (target_date : Date) (property_type : String) (bedrooms : ℤ) :
    (calc_result base_rate area target_date property_type bedrooms).pricing_factors =
      ([("base_rate", .num base_rate),
        ("area_multiplier", .num ((area_multipliers.lookup area).getD 1.0)),
        ("seasonal_multiplier",
          .num (seasonal_multipliers (get_season_for_date target_date))),
        ("season", .str (get_season_for_date target_date).value),
        ("event_multiplier",
          .num (max_event_multiplier_for (get_events_for_date target_date))),
        ("active_events",
          .events (active_events_for (get_events_for_date target_date)))]
       ++ (if target_date.weekday = 4 ∨ target_date.weekday = 5
           then [("weekend_multiplier", .num 1.2)] else [])
       ++ [("bedroom_multiplier",
            .num (max 0.5 (min 3.0 (0.7 + (bedrooms : ℚ) * 0.3))))]) := rfl

/-- The suggested price of a non-raising call, as the rounded product
of the six factors (weekend and property-type factors written as
neutral 1 when not applied). -/
theorem calc_result_price (base_rate : ℚ) (area : String)
    (target_date : Date) (property_type : String) (bedrooms : ℤ) :
    (calc_result base_rate area target_date property_type bedrooms).suggested_price =
      round2 (base_rate * ((area_multipliers.lookup area).getD 1.0)
        * seasonal_multipliers (get_season_for_date target_date)
        * max_event_multiplier_for (get_events_for_date target_date)
        * (if target_date.weekday = 4 ∨ target_date.weekday = 5 then 1.2 else 1)
        * (if property_type = "villa" then 1.5
           else if property_type = "penthouse" then 2.0
           else if property_type = "studio" then 0.8 else 1)
        * max 0.5 (min 3.0 (0.7 + (bedrooms : ℚ) * 0.3))) := by
  simp only [calc_result]
  split_ifs <;> (congr 1 <;> ring)

/-- The demand label of a non-raising call depends only on the date's
season and event factors. -/
theorem calc_result_demand (base_rate : ℚ) (area : String)
    (target_date : Date) (property_type : String) (bedrooms : ℤ) :
    (calc_result base_rate area target_date property_type bedrooms).demand_level =
      _get_demand_level (seasonal_multipliers (get_season_for_date target_date))
        (max_event_multiplier_for (get_events_for_date target_date)) := rfl

example : (okResult (calculate_optimal_price 100 "marina" ⟨2024, 12, 7⟩ "apartment" 1)).suggested_price = 288 := by
  have hw : (⟨2024, 12, 7⟩ : Date).weekday = 5 := by decide
  have he : get_events_for_date ⟨2024, 12, 7⟩ = [] := by decide
  have hs : get_season_for_date ⟨2024, 12, 7⟩ = .peak_winter := by decide
  have ha : area_multipliers.lookup "marina" = some 1.6 := by
    simp [area_multipliers, List.lookup, DubaiArea.value]
  have hv : ("apartment" = "villa") = False := eq_false (by decide)
  have hp : ("apartment" = "penthouse") = False := eq_false (by decide)
  have hst : ("apartment" = "studio") = False := eq_false (by decide)
  norm_num [okResult, calculate_optimal_price, _get_pricing_recommendations,
    _get_demand_level, max_event_multiplier_for, active_events_for,
    hw, he, hs, ha, hv, hp, hst,
    seasonal_multipliers, round2, round_eq, min_def, max_def]

/-- Any `.ok` payload of `calculate_optimal_price` is `calc_result`. -/
theorem ok_eq_calc_result (base_rate : ℚ) (area : String) (target_date : Date)
    (property_type : String) (bedrooms : ℤ) (r : PricingResult)
    (e : calculate_optimal_price base_rate area target_date property_type bedrooms = .ok r) :
    r = calc_result base_rate area target_date property_type bedrooms := by
  by_cases hb : base_rate = 0
  · subst hb
    rw [calculate_zero] at e
    exact absurd e (by simp)
  · rw [calculate_ok base_rate hb] at e
    injection e with e
    exact e.symm

/-- `lookup` on the closed-form factor list, area entry. -/
theorem calc_factors_area (base_rate : ℚ) (area : String) (target_date : Date)
    (property_type : String) (bedrooms : ℤ) :
    (calc_result base_rate area target_date property_type bedrooms).pricing_factors.lookup
        "area_multiplier" =
      some (.num ((area_multipliers.lookup area).getD 1.0)) := by
  rw [calc_result_factors]
  split_ifs <;> simp [List.lookup]

/-- `lookup` on the closed-form factor list, event entry. -/
theorem calc_factors_event (base_rate : ℚ) (area : String) (target_date : Date)
    (property_type : String) (bedrooms : ℤ) :
    (calc_result base_rate area target_date property_type bedrooms).pricing_factors.lookup
        "event_multiplier" =
      some (.num (max_event_multiplier_for (get_events_for_date target_date))) := by
  rw [calc_result_factors]
  split_ifs <;> simp [List.lookup]

/-- C5: `get_season_for_date` is total, deterministic and exhaustive:
every month 1-12 maps to exactly one of the four seasons, with
peak-winter on Dec-Feb, high-winter on Mar and Nov, shoulder on Apr and
Oct, and low-summer on May-Sep, the four month-sets partitioning the
year; calling it twice on the same date yields the same season. -/
theorem C5_resolve_season_total (d : Date) (h1 : 1 ≤ d.month) (h2 : d.month ≤ 12) :
    (get_season_for_date d = .peak_winter ↔
      (d.month = 12 ∨ d.month = 1 ∨ d.month = 2)) ∧
    (get_season_for_date d = .high_winter ↔ (d.month = 3 ∨ d.month = 11)) ∧
    (get_season_for_date d = .shoulder ↔ (d.month = 4 ∨ d.month = 10)) ∧
    (get_season_for_date d = .low_summer ↔ (5 ≤ d.month ∧ d.month ≤ 9)) ∧
    get_season_for_date d = get_season_for_date d := by
  obtain ⟨y, m, dd⟩ := d
  dsimp only at h1 h2 ⊢
  interval_cases m <;>
    refine ⟨?_, ?_, ?_, ?_, rfl⟩ <;> simp [get_season_for_date]

theorem C5_resolve_season_total_witness :
    get_season_for_date ⟨2024, 7, 1⟩ = .low_summer :=
  ((C5_resolve_season_total ⟨2024, 7, 1⟩ (by decide) (by decide)).2.2.2.1).mpr
    (by decide)

/-- C2 counterexample: with `base_rate = 0` the call raises
`ZeroDivisionError` (from the percent-uplift division inside
`_get_pricing_recommendations`), not `InvalidPricingInput`; and a
negative base rate is not rejected at all — the call returns a normal
result. -/
theorem C2_counterexample :
    calculate_optimal_price 0 "marina" ⟨2024, 4, 15⟩ "apartment" 1 =
      .error .zeroDivisionError ∧
    calculate_optimal_price 0 "marina" ⟨2024, 4, 15⟩ "apartment" 1 ≠
      .error .invalidPricingInput ∧
    calculate_optimal_price (-100) "marina" ⟨2024, 4, 15⟩ "apartment" 1 =
      .ok (calc_result (-100) "marina" ⟨2024, 4, 15⟩ "apartment" 1) :=
  ⟨calculate_zero _ _ _ _, by simp [calculate_zero],
    calculate_ok _ (by norm_num) _ _ _ _⟩

/-- C2 (amended): calling `calculate_optimal_price` with
`base_rate = 0` fails with a `ZeroDivisionError` — so it does not
return a result with price 0 — but the error is not
`InvalidPricingInput`, which the code never raises; and `base_rate < 0`
is not rejected: the call returns a normal result. -/
theorem C2_base_rate_zero (area : String) (d : Date) (property_type : String)
    (bedrooms : ℤ) (b : ℚ) (hb : b < 0) :
    calculate_optimal_price 0 area d property_type bedrooms =
      .error .zeroDivisionError ∧
    calculate_optimal_price 0 area d property_type bedrooms ≠
      .error .invalidPricingInput ∧
    ∃ r, calculate_optimal_price b area d property_type bedrooms = .ok r :=
  ⟨calculate_zero area d property_type bedrooms, by simp [calculate_zero],
    ⟨_, calculate_ok b (ne_of_lt hb) area d property_type bedrooms⟩⟩

theorem C2_base_rate_zero_witness :
    calculate_optimal_price 0 "jlt" ⟨2024, 4, 15⟩ "apartment" 1 =
      .error .zeroDivisionError ∧
    calculate_optimal_price 0 "jlt" ⟨2024, 4, 15⟩ "apartment" 1 ≠
      .error .invalidPricingInput ∧
    ∃ r, calculate_optimal_price (-50) "jlt" ⟨2024, 4, 15⟩ "apartment" 1 = .ok r :=
  C2_base_rate_zero "jlt" ⟨2024, 4, 15⟩ "apartment" 1 (-50) (by norm_num)

/-- C1 counterexample: `"atlantis"` is not in the area reference table,
yet `calculate_optimal_price` proceeds with the substituted default
multiplier 1.0 (recording it in the breakdown and pricing 100 → 100.00)
and `get_market_benchmarks` likewise computes its metrics from the
default 1.0 (ADR 120.00); neither raises any error. -/
theorem C1_counterexample :
    area_multipliers.lookup "atlantis" = none ∧
    calculate_optimal_price 100 "atlantis" ⟨2024, 4, 15⟩ "apartment" 1 =
      .ok (calc_result 100 "atlantis" ⟨2024, 4, 15⟩ "apartment" 1) ∧
    (calc_result 100 "atlantis" ⟨2024, 4, 15⟩ "apartment" 1).pricing_factors.lookup
        "area_multiplier" = some (.num 1.0) ∧
    (calc_result 100 "atlantis" ⟨2024, 4, 15⟩ "apartment" 1).suggested_price = 100 ∧
    (get_market_benchmarks "atlantis" "apartment").market_metrics.average_daily_rate
      = 120 := by
  have hl : area_multipliers.lookup "atlantis" = none := by
    simp [area_multipliers, List.lookup, DubaiArea.value]
  refine ⟨hl, calculate_ok 100 (by norm_num) _ _ _ _, ?_, ?_, ?_⟩
  · rw [calc_factors_area, hl]
    rfl
  · have hw : (⟨2024, 4, 15⟩ : Date).weekday = 0 := by decide
    have he : get_events_for_date ⟨2024, 4, 15⟩ = [] := by decide
    have hs : get_season_for_date ⟨2024, 4, 15⟩ = .shoulder := by decide
    have hv : ("apartment" = "villa") = False := eq_false (by decide)
    have hp : ("apartment" = "penthouse") = False := eq_false (by decide)
    have hst : ("apartment" = "studio") = False := eq_false (by decide)
    rw [calc_result_price]
    norm_num [hw, he, hs, hl, hv, hp, hst, seasonal_multipliers,
      max_event_multiplier_for, round2, round_eq, min_def, max_def]
  · norm_num [get_market_benchmarks, hl, round2, round_eq]

/-- C1 (amended): for every area string not present in the reference
table, neither function raises — no `UnknownAreaTag` or
`InvalidPricingInput` error exists in the code.  `calculate_optimal_price`
silently substitutes the default multiplier 1.0 and records it in the
breakdown, and `get_market_benchmarks` computes its metrics from the
same default 1.0 (ADR 120.0, occupancy 75.0, health score 80.0). -/
theorem C1_unknown_area_defaults (area : String)
    (h : area_multipliers.lookup area = none) (b : ℚ) (hb : b ≠ 0)
    (d : Date) (property_type : String) (bedrooms : ℤ) :
    (∃ r, calculate_optimal_price b area d property_type bedrooms = .ok r ∧
      r.pricing_factors.lookup "area_multiplier" = some (.num 1.0)) ∧
    (get_market_benchmarks area property_type).market_metrics.average_daily_rate
      = 120 ∧
    (get_market_benchmarks area property_type).market_metrics.occupancy_rate
      = 75 ∧
    (get_market_benchmarks area property_type).market_metrics.market_health_score
      = 80 := by
  refine ⟨⟨_, calculate_ok b hb area d property_type bedrooms, ?_⟩, ?_, ?_, ?_⟩
  · rw [calc_factors_area, h]
    rfl
  · norm_num [get_market_benchmarks, h, round2, round_eq]
  · norm_num [get_market_benchmarks, h, round1, round_eq]
  · norm_num [get_market_benchmarks, h, round1, round_eq]

theorem C1_unknown_area_defaults_witness :
    (∃ r, calculate_optimal_price 250 "unknown_area" ⟨2024, 1, 10⟩ "villa" 2 =
        .ok r ∧
      r.pricing_factors.lookup "area_multiplier" = some (.num 1.0)) ∧
    (get_market_benchmarks "unknown_area" "villa").market_metrics.average_daily_rate
      = 120 ∧
    (get_market_benchmarks "unknown_area" "villa").market_metrics.occupancy_rate
      = 75 ∧
    (get_market_benchmarks "unknown_area" "villa").market_metrics.market_health_score
      = 80 :=
  C1_unknown_area_defaults "unknown_area"
    (by simp [area_multipliers, List.lookup, DubaiArea.value]) 250 (by norm_num)
    ⟨2024, 1, 10⟩ "villa" 2

/-- C3: on 2024-03-20 the only active event is Ramadan, whose
multiplier in the event table is 0.8, yet the event factor the code
applies is 1.0 — the loop starts its running maximum at 1.0 and only
ever raises it, so the maximum of the active events' multipliers (0.8)
is not the factor used: the price is 130.00 (factor 1.0), not 104.00
(factor 0.8), and the breakdown records `event_multiplier` = 1.0. -/
theorem C3_ramadan_multiplier_never_applied :
    get_events_for_date ⟨2024, 3, 20⟩ =
      [⟨"Ramadan", .ramadan, List.range' 10 22⟩] ∧
    event_multipliers .ramadan = 0.8 ∧
    max_event_multiplier_for (get_events_for_date ⟨2024, 3, 20⟩) = 1 ∧
    calculate_optimal_price 100 "jlt" ⟨2024, 3, 20⟩ "apartment" 1 =
      .ok (calc_result 100 "jlt" ⟨2024, 3, 20⟩ "apartment" 1) ∧
    (calc_result 100 "jlt" ⟨2024, 3, 20⟩ "apartment" 1).pricing_factors.lookup
        "event_multiplier" = some (.num 1) ∧
    (calc_result 100 "jlt" ⟨2024, 3, 20⟩ "apartment" 1).suggested_price = 130 := by
  have he : get_events_for_date ⟨2024, 3, 20⟩ =
      [⟨"Ramadan", .ramadan, List.range' 10 22⟩] := by decide
  have hm : max_event_multiplier_for (get_events_for_date ⟨2024, 3, 20⟩) = 1 := by
    rw [he]
    norm_num [max_event_multiplier_for, event_multipliers]
  have hw : (⟨2024, 3, 20⟩ : Date).weekday = 2 := by decide
  have hs : get_season_for_date ⟨2024, 3, 20⟩ = .high_winter := by decide
  have hl : area_multipliers.lookup "jlt" = some 1.0 := by
    simp [area_multipliers, List.lookup, DubaiArea.value]
  have hv : ("apartment" = "villa") = False := eq_false (by decide)
  have hp : ("apartment" = "penthouse") = False := eq_false (by decide)
  have hst : ("apartment" = "studio") = False := eq_false (by decide)
  refine ⟨he, rfl, hm, calculate_ok 100 (by norm_num) _ _ _ _, ?_, ?_⟩
  · rw [calc_factors_event, hm]
  · rw [calc_result_price]
    norm_num [hw, hs, hm, hl, hv, hp, hst, seasonal_multipliers, round2,
      round_eq, min_def, max_def]

/-- Product of every numeric value recorded in a `pricing_factors`
breakdown (the base rate and each recorded multiplier); the price is
auditable from the breakdown alone iff it equals this product,
rounded. -/
def breakdown_product (pf : List (String × FactorValue)) : ℚ :=
  pf.foldl
    (fun acc kv => match kv.2 with
      | .num q => acc * q
      | _ => acc) 1

/-- The breakdown product of a non-raising call, in closed form. -/
theorem breakdown_product_calc (base_rate : ℚ) (area : String)
    (target_date : Date) (property_type : String) (bedrooms : ℤ) :
    breakdown_product
        (calc_result base_rate area target_date property_type bedrooms).pricing_factors =
      base_rate * ((area_multipliers.lookup area).getD 1.0)
        * seasonal_multipliers (get_season_for_date target_date)
        * max_event_multiplier_for (get_events_for_date target_date)
        * (if target_date.weekday = 4 ∨ target_date.weekday = 5 then 1.2 else 1)
        * max 0.5 (min 3.0 (0.7 + (bedrooms : ℚ) * 0.3)) := by
  rw [calc_result_factors]
  split_ifs <;> simp [breakdown_product] <;> try ring

/-- C4 counterexample: for a villa the 1.5 property-type multiplier is
applied to the price (100 → 150.00) but never recorded in
`pricing_factors` — no entry carries the numeric value 1.5 — so the
final price cannot be recovered from the breakdown, whose recorded
product is 100. -/
theorem C4_counterexample :
    calculate_optimal_price 100 "jlt" ⟨2024, 4, 15⟩ "villa" 1 =
      .ok (calc_result 100 "jlt" ⟨2024, 4, 15⟩ "villa" 1) ∧
    (calc_result 100 "jlt" ⟨2024, 4, 15⟩ "villa" 1).suggested_price = 150 ∧
    breakdown_product
      (calc_result 100 "jlt" ⟨2024, 4, 15⟩ "villa" 1).pricing_factors = 100 ∧
    (calc_result 100 "jlt" ⟨2024, 4, 15⟩ "villa" 1).suggested_price ≠
      round2 (breakdown_product
        (calc_result 100 "jlt" ⟨2024, 4, 15⟩ "villa" 1).pricing_factors) ∧
    ∀ kv ∈ (calc_result 100 "jlt" ⟨2024, 4, 15⟩ "villa" 1).pricing_factors,
      kv.2 ≠ .num 1.5 := by
  have hw : (⟨2024, 4, 15⟩ : Date).weekday = 0 := by decide
  have he : get_events_for_date ⟨2024, 4, 15⟩ = [] := by decide
  have hs : get_season_for_date ⟨2024, 4, 15⟩ = .shoulder := by decide
  have hl : area_multipliers.lookup "jlt" = some 1.0 := by
    simp [area_multipliers, List.lookup, DubaiArea.value]
  have hprice : (calc_result 100 "jlt" ⟨2024, 4, 15⟩ "villa" 1).suggested_price
      = 150 := by
    rw [calc_result_price]
    norm_num [hw, he, hs, hl, seasonal_multipliers, max_event_multiplier_for,
      round2, round_eq, min_def, max_def]
  have hprod : breakdown_product
      (calc_result 100 "jlt" ⟨2024, 4, 15⟩ "villa" 1).pricing_factors = 100 := by
    rw [breakdown_product_calc]
    norm_num [hw, he, hs, hl, seasonal_multipliers, max_event_multiplier_for,
      min_def, max_def]
  refine ⟨calculate_ok 100 (by norm_num) _ _ _ _, hprice, hprod, ?_, ?_⟩
  · rw [hprice, hprod]
    norm_num [round2, round_eq]
  · rw [calc_result_factors]
    norm_num [hw, he, hs, hl, seasonal_multipliers, max_event_multiplier_for,
      active_events_for, DubaiSeason.value, min_def, max_def]
    exact ⟨by decide, by decide⟩

/-- C4 (amended): the breakdown names the base rate and the area,
seasonal, event and bedroom multipliers with their numeric values, and
the weekend multiplier whenever it is applied — but the property-type
multiplier is applied without being recorded, so the final price is
auditable from the breakdown alone only when the property type is not
villa, penthouse or studio (i.e. when that multiplier is 1.0). -/
theorem C4_breakdown_auditable (b : ℚ) (hb : b ≠ 0) (area : String)
    (d : Date) (bedrooms : ℤ) (property_type : String)
    (h1 : property_type ≠ "villa") (h2 : property_type ≠ "penthouse")
    (h3 : property_type ≠ "studio") :
    ∃ r, calculate_optimal_price b area d property_type bedrooms = .ok r ∧
      r.suggested_price = round2 (breakdown_product r.pricing_factors) ∧
      r.pricing_factors.lookup "area_multiplier" =
        some (.num ((area_multipliers.lookup area).getD 1.0)) ∧
      r.pricing_factors.lookup "seasonal_multiplier" =
        some (.num (seasonal_multipliers (get_season_for_date d))) ∧
      r.pricing_factors.lookup "event_multiplier" =
        some (.num (max_event_multiplier_for (get_events_for_date d))) ∧
      (d.weekday = 4 ∨ d.weekday = 5 →
        r.pricing_factors.lookup "weekend_multiplier" = some (.num 1.2)) ∧
      r.pricing_factors.lookup "bedroom_multiplier" =
        some (.num (max 0.5 (min 3.0 (0.7 + (bedrooms : ℚ) * 0.3)))) := by
  refine ⟨_, calculate_ok b hb area d property_type bedrooms,
    ?_, calc_factors_area .., ?_, calc_factors_event .., ?_, ?_⟩
  · rw [calc_result_price, breakdown_product_calc, if_neg h1, if_neg h2,
      if_neg h3]
    congr 1
    try ring
  · rw [calc_result_factors]
    split_ifs <;> simp [List.lookup]
  · intro hwk
    rw [calc_result_factors, if_pos hwk]
    simp [List.lookup]
  · rw [calc_result_factors]
    split_ifs <;> simp [List.lookup]

theorem C4_breakdown_auditable_witness :
    ∃ r, calculate_optimal_price 200 "marina" ⟨2024, 12, 7⟩ "apartment" 2 =
        .ok r ∧
      r.suggested_price = round2 (breakdown_product r.pricing_factors) ∧
      r.pricing_factors.lookup "area_multiplier" =
        some (.num ((area_multipliers.lookup "marina").getD 1.0)) ∧
      r.pricing_factors.lookup "seasonal_multiplier" =
        some (.num (seasonal_multipliers (get_season_for_date ⟨2024, 12, 7⟩))) ∧
      r.pricing_factors.lookup "event_multiplier" =
        some (.num (max_event_multiplier_for (get_events_for_date ⟨2024, 12, 7⟩))) ∧
      ((⟨2024, 12, 7⟩ : Date).weekday = 4 ∨ (⟨2024, 12, 7⟩ : Date).weekday = 5 →
        r.pricing_factors.lookup "weekend_multiplier" = some (.num 1.2)) ∧
      r.pricing_factors.lookup "bedroom_multiplier" =
        some (.num (max 0.5 (min 3.0 (0.7 + (2 : ℚ) * 0.3)))) :=
  C4_breakdown_auditable 200 (by norm_num) "marina" ⟨2024, 12, 7⟩ 2 "apartment"
    (by decide) (by decide) (by decide)

/-- C9: the demand label of any successful `calculate_optimal_price`
call equals the threshold classification of
`seasonal_multiplier * event_multiplier` — both functions of the target
date alone — so two calls on the same date agree on the label whatever
their base rates, areas, property types or bedroom counts; and the
thresholds are ≥2.5 "Very High", ≥1.5 "High", ≥1.0 "Medium", else
"Low". -/
theorem C9_demand_level_date_only (b1 b2 : ℚ) (a1 a2 pt1 pt2 : String)
    (bd1 bd2 : ℤ) (d : Date) (r1 r2 : PricingResult)
    (e1 : calculate_optimal_price b1 a1 d pt1 bd1 = .ok r1)
    (e2 : calculate_optimal_price b2 a2 d pt2 bd2 = .ok r2) :
    r1.demand_level =
      _get_demand_level (seasonal_multipliers (get_season_for_date d))
        (max_event_multiplier_for (get_events_for_date d)) ∧
    r1.demand_level = r2.demand_level ∧
    (2.5 ≤ seasonal_multipliers (get_season_for_date d) *
        max_event_multiplier_for (get_events_for_date d) →
      r1.demand_level = "Very High") ∧
    (1.5 ≤ seasonal_multipliers (get_season_for_date d) *
        max_event_multiplier_for (get_events_for_date d) ∧
     seasonal_multipliers (get_season_for_date d) *
        max_event_multiplier_for (get_events_for_date d) < 2.5 →
      r1.demand_level = "High") ∧
    (1 ≤ seasonal_multipliers (get_season_for_date d) *
        max_event_multiplier_for (get_events_for_date d) ∧
     seasonal_multipliers (get_season_for_date d) *
        max_event_multiplier_for (get_events_for_date d) < 1.5 →
      r1.demand_level = "Medium") ∧
    (seasonal_multipliers (get_season_for_date d) *
        max_event_multiplier_for (get_events_for_date d) < 1 →
      r1.demand_level = "Low") := by
  obtain rfl := ok_eq_calc_result b1 a1 d pt1 bd1 r1 e1
  obtain rfl := ok_eq_calc_result b2 a2 d pt2 bd2 r2 e2
  refine ⟨calc_result_demand .., by simp only [calc_result_demand], ?_, ?_, ?_, ?_⟩
  · intro h
    simp only [calc_result_demand, _get_demand_level]
    split_ifs with hA hB hC <;> first | rfl | linarith
  · rintro ⟨ha, hb⟩
    simp only [calc_result_demand, _get_demand_level]
    split_ifs with hA hB hC <;> first | rfl | linarith
  · rintro ⟨ha, hb⟩
    simp only [calc_result_demand, _get_demand_level]
    split_ifs with hA hB hC <;> first | rfl | linarith
  · intro h
    simp only [calc_result_demand, _get_demand_level]
    split_ifs with hA hB hC <;> first | rfl | linarith

theorem C9_demand_level_date_only_witness :
    (calc_result 100 "marina" ⟨2024, 4, 15⟩ "apartment" 1).demand_level =
      _get_demand_level
        (seasonal_multipliers (get_season_for_date ⟨2024, 4, 15⟩))
        (max_event_multiplier_for (get_events_for_date ⟨2024, 4, 15⟩)) ∧
    (calc_result 100 "marina" ⟨2024, 4, 15⟩ "apartment" 1).demand_level =
      (calc_result 999 "deira" ⟨2024, 4, 15⟩ "penthouse" 5).demand_level :=
  ⟨(C9_demand_level_date_only 100 999 "marina" "deira" "apartment" "penthouse"
      1 5 ⟨2024, 4, 15⟩ _ _
      (calculate_ok 100 (by norm_num) "marina" ⟨2024, 4, 15⟩ "apartment" 1)
      (calculate_ok 999 (by norm_num) "deira" ⟨2024, 4, 15⟩ "penthouse" 5)).1,
   (C9_demand_level_date_only 100 999 "marina" "deira" "apartment" "penthouse"
      1 5 ⟨2024, 4, 15⟩ _ _
      (calculate_ok 100 (by norm_num) "marina" ⟨2024, 4, 15⟩ "apartment" 1)
      (calculate_ok 999 (by norm_num) "deira" ⟨2024, 4, 15⟩ "penthouse" 5)).2.1⟩

/-- A successful association-list lookup produces a member pair. -/
theorem lookup_mem {α β : Type} [BEq α] [LawfulBEq α] (k : α) (v : β) :
    ∀ l : List (α × β), l.lookup k = some v → (k, v) ∈ l := by
  intro l
  induction l with
  | nil => intro h; simp [List.lookup] at h
  | cons p ps ih =>
    obtain ⟨pk, pv⟩ := p
    intro h
    simp only [List.lookup] at h
    split at h
    · rename_i heq
      injection h with h
      subst h
      have hpk : pk = k := (eq_of_beq heq).symm
      subst hpk
      exact List.mem_cons_self _ _
    · exact List.mem_cons_of_mem _ (ih h)

/-- No month of the compiled-in 2024 calendar contains an event of type
`f1_grand_prix`: the duplicated `"2024-03"` key left only the Ramadan
entry for March. -/
theorem calendar_no_f1 (k : ℕ × ℕ) (evs : List CalEvent)
    (h : dubai_events_2024.lookup k = some evs) :
    ∀ e ∈ evs, e.type ≠ .f1_grand_prix := by
  intro e he
  have hm := lookup_mem k evs dubai_events_2024 h
  simp only [dubai_events_2024, List.mem_cons, List.not_mem_nil, or_false] at hm
  rcases hm with h1 | h1 | h1 | h1 | h1 | h1 <;>
    (injection h1 with hk hv; subst hv; fin_cases he <;> decide)

/-- Events resolved for any date are never the Formula 1 Grand Prix. -/
theorem no_f1_events (d : Date) :
    ∀ e ∈ get_events_for_date d, e.type ≠ .f1_grand_prix := by
  intro e he
  unfold get_events_for_date at he
  split at he
  · rename_i evs heq
    exact calendar_no_f1 _ evs heq e (List.mem_of_mem_filter he)
  · simp at he

/-- Every non-F1 event multiplier is at most 2. -/
theorem event_mult_le_two (t : DubaiEvent) (h : t ≠ .f1_grand_prix) :
    event_multipliers t ≤ 2 := by
  cases t <;> first | exact absurd rfl h | norm_num [event_multipliers]

/-- The event-factor fold never exceeds 2 when every event multiplier
in the list is at most 2 and the accumulator starts at most 2. -/
theorem foldl_event_le :
    ∀ l : List CalEvent, (∀ e ∈ l, event_multipliers e.type ≤ 2) →
      ∀ acc : ℚ, acc ≤ 2 →
        l.foldl (fun m e =>
          if event_multipliers e.type > m then event_multipliers e.type else m)
          acc ≤ 2 := by
  intro l
  induction l with
  | nil =>
    intro _ acc hacc
    simpa using hacc
  | cons e es ih =>
    intro h acc hacc
    rw [List.foldl_cons]
    refine ih (fun x hx => h x (List.mem_cons_of_mem _ hx)) _ ?_
    dsimp only
    split_ifs
    · exact h e (List.mem_cons_self _ _)
    · exact hacc

/-- The event factor of any date is at most 2. -/
theorem max_event_le_two (d : Date) :
    max_event_multiplier_for (get_events_for_date d) ≤ 2 :=
  foldl_event_le _
    (fun e he => event_mult_le_two e.type (no_f1_events d e he)) 1.0
    (by norm_num)

/-- C10: because the duplicated `"2024-03"` key of the events-calendar
literal leaves only the Ramadan entry for March, no date ever resolves
to an `f1_grand_prix` event, the applied event factor is bounded by 2
and so never equals the F1 multiplier 3.0, and no successful
`calculate_optimal_price` call ever records an event multiplier of
3.0. -/
theorem C10_f1_never_applied (d : Date) :
    (∀ e ∈ get_events_for_date d, e.type ≠ DubaiEvent.f1_grand_prix) ∧
    max_event_multiplier_for (get_events_for_date d) ≤ 2 ∧
    max_event_multiplier_for (get_events_for_date d) ≠
      event_multipliers .f1_grand_prix ∧
    ∀ b : ℚ, ∀ a pt : String, ∀ bd : ℤ, ∀ r : PricingResult,
      calculate_optimal_price b a d pt bd = .ok r →
        r.pricing_factors.lookup "event_multiplier" ≠ some (.num 3.0) := by
  have h1 := no_f1_events d
  have h2 := max_event_le_two d
  have h3 : max_event_multiplier_for (get_events_for_date d) ≠
      event_multipliers .f1_grand_prix := by
    intro hx
    rw [hx] at h2
    norm_num [event_multipliers] at h2
  refine ⟨h1, h2, h3, ?_⟩
  intro b a pt bd r hr
  obtain rfl := ok_eq_calc_result b a d pt bd r hr
  rw [calc_factors_event]
  simp only [ne_eq, Option.some.injEq, FactorValue.num.injEq]
  exact h3

theorem C10_f1_never_applied_witness :
    ((⟨"Ramadan", .ramadan, List.range' 10 22⟩ : CalEvent).type ≠
      DubaiEvent.f1_grand_prix) ∧
    max_event_multiplier_for (get_events_for_date ⟨2024, 3, 20⟩) ≤ 2 ∧
    (calc_result 100 "jlt" ⟨2024, 3, 20⟩ "apartment" 1).pricing_factors.lookup
        "event_multiplier" ≠ some (.num 3.0) :=
  ⟨(C10_f1_never_applied ⟨2024, 3, 20⟩).1
      ⟨"Ramadan", .ramadan, List.range' 10 22⟩ (by decide),
   (C10_f1_never_applied ⟨2024, 3, 20⟩).2.1,
   (C10_f1_never_applied ⟨2024, 3, 20⟩).2.2.2 100 "jlt" "apartment" 1 _
      (calculate_ok 100 (by norm_num) "jlt" ⟨2024, 3, 20⟩ "apartment" 1)⟩

/-- A loop whose every iteration succeeds produces the mapped list. -/
theorem exceptMapList_ok {α β : Type} (f : α → Except PyError β)
    (g : α → β) (h : ∀ a, f a = .ok (g a)) :
    ∀ l : List α, exceptMapList f l = .ok (l.map g) := by
  intro l
  induction l with
  | nil => rfl
  | cons a as ih =>
    simp [exceptMapList, h a, ih, Bind.bind, Except.bind, Pure.pure,
      Except.pure]

/-- The calendar entry a non-raising iteration produces for day `i`. -/
def calendar_entry_result (base_rate : ℚ) (area : String)
    (property_type : String) (bedrooms : ℤ) (start_date : Date) (i : ℕ) :
    CalendarEntry :=
  let target_date := addDays start_date i
  let pricing_data := calc_result base_rate area target_date property_type bedrooms
  { date := target_date.isoformat,
    day_name := target_date.dayName,
    suggested_price := pricing_data.suggested_price,
    demand_level := pricing_data.demand_level,
    active_events := factor_event_names pricing_data.pricing_factors,
    season := factor_season pricing_data.pricing_factors,
    pricing_factors := pricing_data.pricing_factors }

theorem calendar_entry_ok (base_rate : ℚ) (hb : base_rate ≠ 0)
    (area property_type : String) (bedrooms : ℤ) (start_date : Date) (i : ℕ) :
    calendar_entry base_rate area property_type bedrooms start_date i =
      .ok (calendar_entry_result base_rate area property_type bedrooms
        start_date i) := by
  simp [calendar_entry, calendar_entry_result, calculate_ok base_rate hb]

/-- C6: with a non-zero base rate and `days_ahead = N ≥ 1` the calendar
has exactly `N` entries, entry `i` carries the date `today + i` days
(so the entries cover `N` consecutive days starting at the current date
inclusive), and each entry is the summary of an independent
`calculate_optimal_price` call on that day. -/
theorem C6_calendar_length (base_rate : ℚ) (hb : base_rate ≠ 0)
    (area property_type : String) (bedrooms : ℤ) (today : Date)
    (N : ℤ) (hN : 1 ≤ N) :
    ∃ entries,
      generate_pricing_calendar base_rate area N property_type bedrooms today =
        .ok entries ∧
      (entries.length : ℤ) = N ∧
      ∀ i : ℕ, ∀ hi : i < entries.length,
        (entries.get ⟨i, hi⟩).date = (addDays today i).isoformat ∧
        ∃ r, calculate_optimal_price base_rate area (addDays today i)
            property_type bedrooms = .ok r ∧
          (entries.get ⟨i, hi⟩).suggested_price = r.suggested_price ∧
          (entries.get ⟨i, hi⟩).demand_level = r.demand_level ∧
          (entries.get ⟨i, hi⟩).pricing_factors = r.pricing_factors := by
  refine ⟨(List.range N.toNat).map
    (calendar_entry_result base_rate area property_type bedrooms today),
    ?_, ?_, ?_⟩
  · unfold generate_pricing_calendar
    exact exceptMapList_ok _ _
      (calendar_entry_ok base_rate hb area property_type bedrooms today) _
  · simp [Int.toNat_of_nonneg (by omega : (0 : ℤ) ≤ N)]
  · intro i hi
    have hget : ((List.range N.toNat).map
        (calendar_entry_result base_rate area property_type bedrooms today)).get
          ⟨i, hi⟩ =
        calendar_entry_result base_rate area property_type bedrooms today i := by
      simp [List.get_eq_getElem]
    rw [hget]
    exact ⟨rfl, calc_result base_rate area (addDays today i) property_type bedrooms,
      calculate_ok base_rate hb area (addDays today i) property_type bedrooms,
      rfl, rfl, rfl⟩

theorem C6_calendar_length_witness :
    ∃ entries,
      generate_pricing_calendar 100 "jlt" 3 "apartment" 1 ⟨2024, 4, 15⟩ =
        .ok entries ∧
      (entries.length : ℤ) = 3 ∧
      ∀ i : ℕ, ∀ hi : i < entries.length,
        (entries.get ⟨i, hi⟩).date = (addDays ⟨2024, 4, 15⟩ i).isoformat ∧
        ∃ r, calculate_optimal_price 100 "jlt" (addDays ⟨2024, 4, 15⟩ i)
            "apartment" 1 = .ok r ∧
          (entries.get ⟨i, hi⟩).suggested_price = r.suggested_price ∧
          (entries.get ⟨i, hi⟩).demand_level = r.demand_level ∧
          (entries.get ⟨i, hi⟩).pricing_factors = r.pricing_factors :=
  C6_calendar_length 100 (by norm_num) "jlt" "apartment" 1 ⟨2024, 4, 15⟩ 3
    (by norm_num)

/-- C7 counterexample: `days_ahead = 0` makes the calendar silently
return the empty list (no error of any kind), and `months_ahead = 0`
makes the forecast fail with a `ValueError` (from `max()` over the
empty forecast list), not an `InvalidPricingInput`. -/
theorem C7_counterexample :
    generate_pricing_calendar 100 "marina" 0 "apartment" 1 ⟨2024, 4, 15⟩ =
      .ok [] ∧
    generate_pricing_calendar 100 "marina" (-7) "apartment" 1 ⟨2024, 4, 15⟩ =
      .ok [] ∧
    get_market_forecast 0 ⟨2024, 4, 15⟩ (fun _ => 0) = .error .valueError ∧
    get_market_forecast 0 ⟨2024, 4, 15⟩ (fun _ => 0) ≠
      .error .invalidPricingInput := by
  refine ⟨rfl, rfl, rfl, ?_⟩
  intro h
  rw [show get_market_forecast 0 ⟨2024, 4, 15⟩ (fun _ => 0) =
    .error .valueError from rfl] at h
  exact absurd h (by simp)

/-- C7 (amended): neither function validates its window argument, and
neither ever raises `InvalidPricingInput`: `generate_pricing_calendar`
with `days_ahead ≤ 0` silently returns the empty list, while
`get_market_forecast` with `months_ahead ≤ 0` does fail — but with a
`ValueError` raised by `max()` on the empty forecast list. -/
theorem C7_nonpositive_windows (days_ahead months_ahead : ℤ)
    (hd : days_ahead ≤ 0) (hm : months_ahead ≤ 0) (base_rate : ℚ)
    (area property_type : String) (bedrooms : ℤ) (today : Date)
    (sinApprox : ℚ → ℚ) :
    generate_pricing_calendar base_rate area days_ahead property_type
      bedrooms today = .ok [] ∧
    get_market_forecast months_ahead today sinApprox = .error .valueError := by
  constructor
  · unfold generate_pricing_calendar
    rw [Int.toNat_of_nonpos hd]
    rfl
  · unfold get_market_forecast
    rw [Int.toNat_of_nonpos hm]
    rfl

theorem C7_nonpositive_windows_witness :
    generate_pricing_calendar 120 "downtown" (-3) "studio" 0 ⟨2024, 6, 1⟩ =
      .ok [] ∧
    get_market_forecast (-12) ⟨2024, 6, 1⟩ (fun _ => 0) =
      .error .valueError :=
  C7_nonpositive_windows (-3) (-12) (by norm_num) (by norm_num) 120
    "downtown" "studio" 0 ⟨2024, 6, 1⟩ (fun _ => 0)

/-- The forecast data of a successful call is the mapped month list. -/
theorem forecast_data_of_ok (months_ahead : ℤ) (today : Date)
    (sinApprox : ℚ → ℚ) (fr : ForecastResult)
    (h : get_market_forecast months_ahead today sinApprox = .ok fr) :
    fr.forecast_data =
      (List.range months_ahead.toNat).map (forecast_month today sinApprox) := by
  unfold get_market_forecast at h
  split at h
  · exact absurd h (by simp)
  · rename_i hd tl heq
    injection h with h
    rw [← h]
    exact heq.symm

/-- C8: every confidence value in a forecast equals
`max(60, 95 - 3*i)` for its 0-based month index `i`, hence confidences
never go below 60 and are monotonically non-increasing month over
month. -/
theorem C8_confidence_decay (months_ahead : ℤ) (today : Date)
    (sinApprox : ℚ → ℚ) (fr : ForecastResult)
    (hok : get_market_forecast months_ahead today sinApprox = .ok fr)
    (i : ℕ) (hi : i < fr.forecast_data.length) :
    (fr.forecast_data.get ⟨i, hi⟩).confidence = max 60 (95 - 3 * (i : ℤ)) ∧
    60 ≤ (fr.forecast_data.get ⟨i, hi⟩).confidence ∧
    ∀ hj : i + 1 < fr.forecast_data.length,
      (fr.forecast_data.get ⟨i + 1, hj⟩).confidence ≤
        (fr.forecast_data.get ⟨i, hi⟩).confidence := by
  have hdata := forecast_data_of_ok months_ahead today sinApprox fr hok
  obtain ⟨data, insights⟩ := fr
  dsimp only at hdata hi ⊢
  subst hdata
  have hconf : ∀ j : ℕ, ∀ hj : j <
      ((List.range months_ahead.toNat).map
        (forecast_month today sinApprox)).length,
      (((List.range months_ahead.toNat).map
        (forecast_month today sinApprox)).get ⟨j, hj⟩).confidence =
        max 60 (95 - (j : ℤ) * 3) := by
    intro j hj
    simp [List.get_eq_getElem, forecast_month]
  refine ⟨?_, ?_, ?_⟩
  · rw [hconf i hi, mul_comm]
  · rw [hconf i hi]
    exact le_max_left _ _
  · intro hj
    rw [hconf i hi, hconf (i + 1) hj]
    refine max_le_max le_rfl ?_
    push_cast
    linarith

/-- The concrete two-month forecast from 2024-04-15 with the zero
variation function: months Apr 2024 (shoulder, revenue 5000,
confidence 95) and May 2024 (low-summer, revenue 3500, confidence
92). -/
def forecastWitness : ForecastResult :=
  { forecast_data :=
      [⟨"Apr 2024", "Apr", 5000, 95, "shoulder", 1.0⟩,
       ⟨"May 2024", "May", 3500, 92, "low_summer", 0.7⟩],
    insights :=
      { peak_month := ⟨"Apr 2024", "Apr", 5000, 95, "shoulder", 1.0⟩,
        low_month := ⟨"May 2024", "May", 3500, 92, "low_summer", 0.7⟩,
        average_confidence := 93.5 } }

set_option maxRecDepth 4000 in
theorem forecastWitness_ok :
    get_market_forecast 2 ⟨2024, 4, 15⟩ (fun _ => 0) = .ok forecastWitness := by
  have h0 : addDays ⟨2024, 4, 15⟩ (30 * 0) = ⟨2024, 4, 15⟩ := rfl
  have h30 : addDays ⟨2024, 4, 15⟩ (30 * 1) = ⟨2024, 5, 15⟩ := by decide
  have hs0 : get_season_for_date ⟨2024, 4, 15⟩ = .shoulder := by decide
  have hs1 : get_season_for_date ⟨2024, 5, 15⟩ = .low_summer := by decide
  have hm0 : (⟨2024, 4, 15⟩ : Date).monthLabel = "Apr 2024" := by decide
  have hm1 : (⟨2024, 5, 15⟩ : Date).monthLabel = "May 2024" := by decide
  have ha0 : (⟨2024, 4, 15⟩ : Date).monthAbbrev = "Apr" := by decide
  have ha1 : (⟨2024, 5, 15⟩ : Date).monthAbbrev = "May" := by decide
  have hr2 : ((2 : ℤ)).toNat = 2 := rfl
  have hrange : List.range 2 = [0, 1] := by decide
  norm_num [get_market_forecast, forecast_month, forecastWitness, hr2, hrange,
    h0, h30, hs0, hs1, hm0, hm1, ha0, ha1, seasonal_multipliers,
    peakByRevenue, lowByRevenue, round2, round1, round_eq,
    DubaiSeason.value]

theorem C8_confidence_decay_witness :
    (forecastWitness.forecast_data.get ⟨0, by decide⟩).confidence =
      max 60 (95 - 3 * ((0 : ℕ) : ℤ)) ∧
    60 ≤ (forecastWitness.forecast_data.get ⟨0, by decide⟩).confidence ∧
    ∀ hj : 0 + 1 < forecastWitness.forecast_data.length,
      (forecastWitness.forecast_data.get ⟨0 + 1, hj⟩).confidence ≤
        (forecastWitness.forecast_data.get ⟨0, by decide⟩).confidence :=
  C8_confidence_decay 2 ⟨2024, 4, 15⟩ (fun _ => 0) forecastWitness
    forecastWitness_ok 0 (by decide)
